import Mathlib

/-!
Verification of the aicad-mcp repository specification.

This file shallowly embeds the parts of the repository that the claims
C1-C10 are about and settles each claim with a theorem:

* `Spatial` — `src/freecad_mcp/enhanced_spatial_framework.py`
  (constraint evaluation, `evaluate_layout`, `optimize_layout`);
* `Dfm` — `addon/FreeCADMCP/dfm/base_checker.py`, `tdp_check3.py`,
  `cnc_check12.py` (wall-thickness ray casting, per-method exception
  handling in `run_all_checks`, clearance pairing, process presets);
* `Rpc` — `addon/FreeCADMCP/core/rpc_handler.py`
  (`restore_colors_after_check` cache popping);
* `Client` — `addon/FreeCADMCP/core/client.py` (the stateful tool loop);
* `Cad` — `src/freecad_mcp/advanced_cad_operations.py`
  (`analyze_feature_dependencies` cycle detection);
* `Fit` — `src/freecad_mcp/enhanced_server.py`
  (`calculate_fit_and_tolerance` suitability logic).

Machine reals are modelled by `ℚ`; the only irrational operation the
claims touch, `math.sqrt`, is modelled by `Rat.sqrt`, which agrees with
it on every perfect-square input used in this development.
-/

namespace Spatial

/-- Model of `math.sqrt` used by the distance-based constraint
evaluators.  `Rat.sqrt` agrees with the real square root on
perfect-square rationals; no theorem below applies it to any other
input.  (Python's `math` module has `sqrt` but — decisive for claim C1 —
no `random`.) -/
def msqrt (q : ℚ) : ℚ := Rat.sqrt q

/-- `BoundingBox` dataclass of `enhanced_spatial_framework.py`
(fields `min_x .. max_z`). -/
structure BoundingBox where
  min_x : ℚ
  min_y : ℚ
  min_z : ℚ
  max_x : ℚ
  max_y : ℚ
  max_z : ℚ
deriving DecidableEq

/-- `BoundingBox.intersects`: axis-aligned box intersection test,
exactly the six comparisons of the source. -/
def BoundingBox.intersects (b o : BoundingBox) : Bool :=
  decide (b.min_x ≤ o.max_x ∧ b.max_x ≥ o.min_x ∧
          b.min_y ≤ o.max_y ∧ b.max_y ≥ o.min_y ∧
          b.min_z ≤ o.max_z ∧ b.max_z ≥ o.min_z)

/-- `BoundingBox.distance_to`: per-axis non-overlap gaps combined by
`math.sqrt(dx*dx + dy*dy + dz*dz)`. -/
def BoundingBox.distance_to (b o : BoundingBox) : ℚ :=
  let dx := max 0 (max (b.min_x - o.max_x) (o.min_x - b.max_x))
  let dy := max 0 (max (b.min_y - o.max_y) (o.min_y - b.max_y))
  let dz := max 0 (max (b.min_z - o.max_z) (o.min_z - b.max_z))
  msqrt (dx * dx + dy * dy + dz * dz)

/-- `ObjectType` enum of the source. -/
inductive ObjectType where
  | mechanical
  | electronic
  | structural
  | interface
  | safety
deriving DecidableEq

/-- `SpatialObject` dataclass.  `thermal_properties` defaults to
`heat_generation = 0`; only that key is read by the evaluators, so it is
flattened into the field `heat_generation`. -/
structure SpatialObject where
  name : String
  obj_type : ObjectType := ObjectType.mechanical
  position : ℚ × ℚ × ℚ
  dimensions : ℚ × ℚ × ℚ
  mass : ℚ := 1
  fixed : Bool := false
  heat_generation : ℚ := 0
deriving DecidableEq

instance : Inhabited SpatialObject :=
  ⟨{ name := "", position := (0, 0, 0), dimensions := (0, 0, 0) }⟩

/-- `SpatialObject.bounding_box`: box of the given dimensions centred at
`position`. -/
def SpatialObject.bounding_box (o : SpatialObject) : BoundingBox :=
  { min_x := o.position.1 - o.dimensions.1 / 2
    max_x := o.position.1 + o.dimensions.1 / 2
    min_y := o.position.2.1 - o.dimensions.2.1 / 2
    max_y := o.position.2.1 + o.dimensions.2.1 / 2
    min_z := o.position.2.2 - o.dimensions.2.2 / 2
    max_z := o.position.2.2 + o.dimensions.2.2 / 2 }

/-- `ConstraintType` enum of the source. -/
inductive ConstraintType where
  | clearance
  | accessibility
  | thermal
  | electromagnetic
  | gravity
  | ergonomic
deriving DecidableEq

/-- The `parameters` dict of a `SpatialConstraint`, flattened to the
keys the evaluators read, each with the default the corresponding
`parameters.get(...)` call supplies. -/
structure ConstraintParams where
  min_distance : ℚ := 5
  direction : String := "top"
  distance : ℚ := 50
  max_temp_rise : ℚ := 20
  support_required : Bool := true
  min_support_area : ℚ := 1/10
  optimal_height : ℚ × ℚ := (700, 1200)
  max_reach : ℚ := 600
deriving DecidableEq

/-- `SpatialConstraint` dataclass (`priority` defaults to 1). -/
structure SpatialConstraint where
  constraint_type : ConstraintType
  objects : List String
  parameters : ConstraintParams := {}
  priority : ℕ := 1
deriving DecidableEq

/-- Result record of `SpatialConstraint.evaluate`: the `satisfied` and
`violation` entries (the only ones `evaluate_layout` reads). -/
structure EvalResult where
  satisfied : Bool
  violation : ℚ
deriving DecidableEq

/-- `objects[name]` lookup.  The source indexes a dict and would raise
`KeyError` for an unknown name; `add_constraint` validates that every
referenced name exists, and every constraint evaluated below references
present objects only, so the exceptional path is not modelled. -/
def findObject (objs : List SpatialObject) (n : String) : SpatialObject :=
  (objs.find? (fun o => o.name = n)).getD default

/-- `_evaluate_clearance` (two-object distance versus `min_distance`). -/
def evaluateClearance (objs : List SpatialObject) (c : SpatialConstraint) : EvalResult :=
  if c.objects.length < 2 then ⟨true, 0⟩
  else
    let o1 := findObject objs (c.objects.getD 0 "")
    let o2 := findObject objs (c.objects.getD 1 "")
    let actual := o1.bounding_box.distance_to o2.bounding_box
    let violation := max 0 (c.parameters.min_distance - actual)
    ⟨violation = 0, violation⟩

/-- `_evaluate_accessibility` (obstruction count in a directional access
zone; any direction other than `top`/`front` defaults to `top`). -/
def evaluateAccessibility (objs : List SpatialObject) (c : SpatialConstraint) : EvalResult :=
  let targetName := c.objects.getD 0 ""
  let t := findObject objs targetName
  let (x, y, z) := (t.position.1, t.position.2.1, t.position.2.2)
  let (w, h, d) := (t.dimensions.1, t.dimensions.2.1, t.dimensions.2.2)
  let dist := c.parameters.distance
  let zone : BoundingBox :=
    if c.parameters.direction = "top" then
      ⟨x - w/2, y - h/2, z + d/2, x + w/2, y + h/2, z + d/2 + dist⟩
    else if c.parameters.direction = "front" then
      ⟨x - w/2, y + h/2, z - d/2, x + w/2, y + h/2 + dist, z + d/2⟩
    else
      ⟨x - w/2, y - h/2, z + d/2, x + w/2, y + h/2, z + d/2 + dist⟩
  let obstructions :=
    objs.filter (fun o => o.name ≠ targetName ∧ o.bounding_box.intersects zone)
  ⟨obstructions.length = 0, obstructions.length⟩

/-- `_evaluate_thermal` (inverse-square heuristic temperature rise). -/
def evaluateThermal (objs : List SpatialObject) (c : SpatialConstraint) : EvalResult :=
  let source := findObject objs (c.objects.getD 0 "")
  if 1 < c.objects.length then
    let sensitive := findObject objs (c.objects.getD 1 "")
    let distance := source.bounding_box.distance_to sensitive.bounding_box
    let temp_rise := source.heat_generation / max 1 (distance ^ 2) * 100
    let violation := max 0 (temp_rise - c.parameters.max_temp_rise)
    ⟨violation = 0, violation⟩
  else ⟨true, 0⟩

/-- `_evaluate_gravity` (footprint support area versus
`min_support_area`; the footprint is `w * d`, the first and third
components of `dimensions`). -/
def evaluateGravity (objs : List SpatialObject) (c : SpatialConstraint) : EvalResult :=
  let o := findObject objs (c.objects.getD 0 "")
  if ¬ c.parameters.support_required then ⟨true, 0⟩
  else
    let support_area := o.dimensions.1 * o.dimensions.2.2
    let violation := max 0 (c.parameters.min_support_area - support_area)
    ⟨violation = 0, violation⟩

/-- `_evaluate_ergonomic` (height band plus horizontal reach). -/
def evaluateErgonomic (objs : List SpatialObject) (c : SpatialConstraint) : EvalResult :=
  let o := findObject objs (c.objects.getD 0 "")
  let (x, y, z) := (o.position.1, o.position.2.1, o.position.2.2)
  let oh := c.parameters.optimal_height
  let height_violation : ℚ :=
    if z < oh.1 then oh.1 - z else if z > oh.2 then z - oh.2 else 0
  let reach := msqrt (x * x + y * y)
  let reach_violation := max 0 (reach - c.parameters.max_reach)
  let total := height_violation + reach_violation
  ⟨total = 0, total⟩

/-- `SpatialConstraint.evaluate`: dispatch on the constraint type; the
types without an evaluator (here `electromagnetic`) fall to the `else`
branch returning satisfied with zero violation. -/
def SpatialConstraint.evaluate (c : SpatialConstraint) (objs : List SpatialObject) : EvalResult :=
  match c.constraint_type with
  | ConstraintType.clearance => evaluateClearance objs c
  | ConstraintType.accessibility => evaluateAccessibility objs c
  | ConstraintType.thermal => evaluateThermal objs c
  | ConstraintType.gravity => evaluateGravity objs c
  | ConstraintType.ergonomic => evaluateErgonomic objs c
  | ConstraintType.electromagnetic => ⟨true, 0⟩

/-- The entries of `evaluate_layout`'s result that the claims read. -/
structure LayoutEvaluation where
  overall_score : ℚ
  total_violations : ℕ
deriving DecidableEq

/-- `evaluate_layout`: each constraint scores `100` when satisfied and
`max(0, 100 - violation*10)` otherwise, weighted by its integer
priority; the overall score is `total_score / max(1, total_weight)`.
(The `object_status` and `recommendations` entries of the source result
do not feed back into the score and are not modelled.) -/
def evaluate_layout (objs : List SpatialObject) (cs : List SpatialConstraint) :
    LayoutEvaluation :=
  let t := cs.foldl
    (fun (acc : ℚ × ℕ × ℕ) c =>
      let r := c.evaluate objs
      let score : ℚ := if r.satisfied then 100 else max 0 (100 - r.violation * 10)
      (acc.1 + score * (c.priority : ℚ), acc.2.1 + c.priority,
       acc.2.2 + (if r.satisfied then 0 else 1)))
    (0, 0, 0)
  { overall_score := t.1 / max 1 ((t.2.1 : ℚ)), total_violations := t.2.2 }

/-- The entries of `optimize_layout`'s result that the claims read.
`errored` models the presence of the `"error"` key the `except` branch
adds. -/
structure OptimizationResults where
  initial_score : ℚ
  final_score : ℚ
  iterations : ℕ
  errored : Bool
deriving DecidableEq

/-- `optimize_layout`.  The result dict is initialised with
`initial_score = final_score = 0.0`; `initial_score` is then set from
`evaluate_layout`.  The first perturbation attempt executes
`dx = (math.random() - 0.5) * 20`, and Python's `math` module has no
attribute `random`, so whenever the iteration loop reaches a non-fixed
object (i.e. `max_iterations ≥ 1` and some object has `fixed == False`)
an `AttributeError` is raised, caught by the surrounding `except`, and
the function returns with `final_score` still at its initialised `0.0`.
If no non-fixed object is ever reached (no iterations, or every object
fixed, or no objects) the loop breaks after the first improvement-free
pass and `final_score` is set to `best_score = initial_score`. -/
def optimize_layout (objs : List SpatialObject) (cs : List SpatialConstraint)
    (max_iterations : ℕ) : OptimizationResults :=
  let initial := (evaluate_layout objs cs).overall_score
  if 1 ≤ max_iterations ∧ objs.any (fun o => !o.fixed) then
    { initial_score := initial, final_score := 0, iterations := 0, errored := true }
  else
    { initial_score := initial, final_score := initial, iterations := 0, errored := false }

/-- The layout of claim C1's failing input: one movable 10x10x10
component. -/
def c1Objects : List SpatialObject :=
  [{ name := "A", position := (0, 0, 5), dimensions := (10, 10, 10), fixed := false }]

/-- One satisfied gravity constraint on that component (all parameters
left at the defaults the source's `parameters.get` calls supply). -/
def c1Constraints : List SpatialConstraint :=
  [{ constraint_type := ConstraintType.gravity, objects := ["A"], priority := 1 }]

end Spatial

/-- Claim C10: with an empty constraint list, `evaluate_layout` returns
`overall_score = 0` for every object set — the weighted average divides
the zero total score by `max(1, total weight) = 1` — and consequently
`optimize_layout`'s `initial_score` for an unconstrained layout is also
`0`, for every iteration bound. -/
theorem Spatial.evaluate_layout_empty_constraints_zero
    (objs : List Spatial.SpatialObject) (n : ℕ) :
    (Spatial.evaluate_layout objs []).overall_score = 0 ∧
    (Spatial.optimize_layout objs [] n).initial_score = 0 := by
  have h : (Spatial.evaluate_layout objs []).overall_score = 0 := by
    simp [Spatial.evaluate_layout]
  refine ⟨h, ?_⟩
  unfold Spatial.optimize_layout
  split <;> simpa using h

/-- Claim C1 (evaluation at the failing input): a layout with one
non-fixed object and one satisfied gravity constraint scores 100, yet
`optimize_layout` with `max_iterations = 1` returns `final_score = 0`
(< `initial_score = 100`) because `math.random()` raises
`AttributeError` on the first perturbation attempt and the caught
exception leaves `final_score` at its initialised value — refuting
"final_score is always ≥ initial_score". -/
theorem Spatial.optimize_layout_final_score_drops :
    (Spatial.optimize_layout Spatial.c1Objects Spatial.c1Constraints 1).initial_score = 100 ∧
    (Spatial.optimize_layout Spatial.c1Objects Spatial.c1Constraints 1).final_score = 0 ∧
    (Spatial.optimize_layout Spatial.c1Objects Spatial.c1Constraints 1).final_score <
      (Spatial.optimize_layout Spatial.c1Objects Spatial.c1Constraints 1).initial_score := by
  have h : Spatial.evaluate_layout Spatial.c1Objects Spatial.c1Constraints =
      { overall_score := 100, total_violations := 0 } := by
    simp [Spatial.evaluate_layout, Spatial.c1Objects, Spatial.c1Constraints,
      Spatial.SpatialConstraint.evaluate, Spatial.evaluateGravity, Spatial.findObject,
      List.find?]
    norm_num
  have hrun : Spatial.optimize_layout Spatial.c1Objects Spatial.c1Constraints 1 =
      { initial_score := 100, final_score := 0, iterations := 0, errored := true } := by
    rw [Spatial.optimize_layout, h]
    simp [Spatial.c1Objects]
  rw [hrun]
  norm_num

namespace Dfm

/-- Ascending insertion of one element, helper for `sortAsc`. -/
def insertAsc (x : ℚ) : List ℚ → List ℚ
  | [] => [x]
  | y :: ys => if x ≤ y then x :: y :: ys else y :: insertAsc x ys

/-- Python's `sorted` on a list of distances (ascending insertion
sort). -/
def sortAsc : List ℚ → List ℚ
  | [] => []
  | x :: xs => insertAsc x (sortAsc xs)

/-- `min(...)` over a list of distances; `none` for the empty list
(Python would raise there, but every use below is guarded by a
non-emptiness test, as in the source). -/
def minD : List ℚ → Option ℚ
  | [] => none
  | x :: xs => some (xs.foldl min x)

/-- `measure_wall_thickness` line 261: the ray length is
`min(bbox_diag, 1000)` for whatever `bbox_diag` the caller passes. -/
def maxRayLength (bbox_diag : ℚ) : ℚ := min bbox_diag 1000

/-- The thickness-resolution policy of `measure_wall_thickness`
(lines 322-343), applied to the tolerance-filtered intersection
distances of the two rays.  `Except.error` models the `IndexError` that
`distances[1]` raises when the negative list has exactly one element at
distance ≤ 0.001 (its guard tests `len > 0`, unlike the positive
branch's `len > 1`). -/
def resolveThickness (pos neg : List ℚ) : Except Unit ℚ :=
  let min_threshold : ℚ := 1/1000
  match minD pos with
  | some mp0 =>
    let mp := if mp0 ≤ min_threshold ∧ 1 < pos.length
              then ((sortAsc pos)[1]?).getD mp0 else mp0
    (match minD neg with
     | some mn0 =>
       if mn0 ≤ min_threshold ∧ 0 < neg.length then
         match (sortAsc neg)[1]? with
         | none => Except.error ()
         | some mn =>
           let t := min mp mn
           Except.ok (if t ≤ min_threshold then max mp mn else t)
       else
         let t := min mp mn0
         Except.ok (if t ≤ min_threshold then max mp mn0 else t)
     | none => Except.ok mp)
  | none =>
    match minD neg with
    | some mn0 =>
      if mn0 ≤ min_threshold ∧ 0 < neg.length then
        match (sortAsc neg)[1]? with
        | none => Except.error ()
        | some mn => Except.ok mn
      else Except.ok mn0
    | none => Except.ok 0

/-- `measure_wall_thickness(shape, point, normal, bbox_diag)`: the two
argument lists are the distances (along +normal and −normal) of every
intersection of the two cast rays with the solid; the 0.005 mm
self-intersection filter, the thickness-resolution policy and the final
sanity check `thickness > bbox_diag or thickness < 0.01 → None` are the
source's.  `Except.ok none` is Python's `return None` ("no
measurement"); `Except.error` a propagating exception. -/
def measure_wall_thickness (bbox_diag : ℚ) (pos0 neg0 : List ℚ) :
    Except Unit (Option ℚ) :=
  let tol : ℚ := 5/1000
  let pos := pos0.filter (fun d => tol < d)
  let neg := neg0.filter (fun d => tol < d)
  match resolveThickness pos neg with
  | Except.error e => Except.error e
  | Except.ok thickness =>
    Except.ok (if bbox_diag < thickness ∨ thickness < 1/100 then none else some thickness)

/-- One sampled surface point of `check_wall_thickness`
(base_checker.py lines 67-68 and 90): the caller computes
`bbox_diag = math.sqrt(bbox.DiagonalLength)` and hands it to
`measure_wall_thickness`; the rays have length
`maxRayLength bbox_diag`, so an intersection is found only within that
length.  `sqrt_diag` is the value of `math.sqrt(DiagonalLength)`. -/
def sample_wall_thickness (sqrt_diag : ℚ) (posHits negHits : List ℚ) :
    Except Unit (Option ℚ) :=
  let L := maxRayLength sqrt_diag
  measure_wall_thickness sqrt_diag
    (posHits.filter (fun d => d ≤ L)) (negHits.filter (fun d => d ≤ L))

/-- Follows the words of claim C4 (and spec section 4.3), for
comparison with `sample_wall_thickness`: rays of length
`min(DiagonalLength, 1000)` and a thickness discarded exactly when it
exceeds `DiagonalLength` or is below 0.01 mm. -/
def sample_wall_thickness_claimed (diag : ℚ) (posHits negHits : List ℚ) :
    Except Unit (Option ℚ) :=
  let L := maxRayLength diag
  measure_wall_thickness diag
    (posHits.filter (fun d => d ≤ L)) (negHits.filter (fun d => d ≤ L))

end Dfm

/-- Claim C4 (evaluation at the failing input): for a shape of
bounding-box diagonal 100 mm (`math.sqrt(100) = 10`, pinned by the
first two conjuncts) the code casts rays of length
`min(√100, 1000) = 10` mm where the claim states `min(100, 1000) =
100` mm; a wall whose opposite surface lies 50 mm along the +normal is
reported as no measurement by the code (the 10 mm ray finds no
intersection and the fallback thickness 0 is below the 0.01 floor),
while under the claim's words the 50 mm thickness is found and kept. -/
theorem Dfm.wall_thickness_ray_uses_sqrt_of_diagonal :
    (0:ℚ) ≤ 10 ∧ (10:ℚ) * 10 = 100 ∧
    Dfm.maxRayLength 10 = 10 ∧ Dfm.maxRayLength 100 = 100 ∧
    Dfm.sample_wall_thickness 10 [50] [] = Except.ok none ∧
    Dfm.sample_wall_thickness_claimed 100 [50] [] = Except.ok (some 50) := by
  refine ⟨by norm_num, by norm_num, ?_, ?_, ?_, ?_⟩ <;>
    simp [Dfm.maxRayLength, Dfm.sample_wall_thickness, Dfm.sample_wall_thickness_claimed,
      Dfm.measure_wall_thickness, Dfm.resolveThickness, Dfm.minD, Dfm.sortAsc,
      Dfm.insertAsc] <;> norm_num

namespace Dfm

/-- Outcome of one per-object check-method call inside
`run_all_checks`: the method either returns normally after appending
`found` to the issue buckets, or raises an exception that the
surrounding `try/except` catches.  (The issue payloads themselves are
opaque strings here; only their collection order matters to the
claim.) -/
inductive CheckOutcome where
  | ok (found : List String)
  | raises
deriving DecidableEq

/-- The `(issues, success)` pair a checker run hands back to its caller
(`run_*_dfm_checker` returns `checker.success` and the issue dict; the
buckets are flattened to one list). -/
structure CheckerRun where
  issues : List String
  success : Bool
deriving DecidableEq

/-- One `try/except` block of `CNCDFMChecker.run_all_checks`
(cnc_check12.py lines 52-71, likewise the injection-molding checker):
on exception the handler executes `self.success = False`. -/
def cncStep (acc : CheckerRun) (o : CheckOutcome) : CheckerRun :=
  match o with
  | CheckOutcome.ok found => { issues := acc.issues ++ found, success := acc.success }
  | CheckOutcome.raises => { issues := acc.issues, success := false }

/-- `CNCDFMChecker.run_all_checks` over the per-object, per-method
outcomes: `self.success = True` on entry, then every method of every
object runs inside its own `try/except`. -/
def run_all_checks_cnc (objs : List (List CheckOutcome)) : CheckerRun :=
  objs.foldl (fun acc methods => methods.foldl cncStep acc) { issues := [], success := true }

/-- One `try/except` block of `TDPDFMChecker.run_all_checks`
(tdp_check3.py lines 106-138): on exception the handler executes
`success = False`, which binds a fresh *local* variable — `self.success`
is not assigned.  The accumulator's second component is that dead local;
the first is the checker state read by the caller. -/
def tdpStep (acc : CheckerRun × Bool) (o : CheckOutcome) : CheckerRun × Bool :=
  match o with
  | CheckOutcome.ok found =>
    ({ issues := acc.1.issues ++ found, success := acc.1.success }, acc.2)
  | CheckOutcome.raises => (acc.1, false)

/-- `TDPDFMChecker.run_all_checks`: `self.success = True` at line 97,
then the per-method handlers only touch the local `success`; the
returned `CheckerRun` is what `run_tdp_dfm_checker` hands to the caller
(`checker.success` plus the issues). -/
def run_all_checks_tdp (objs : List (List CheckOutcome)) : CheckerRun :=
  (objs.foldl (fun acc methods => methods.foldl tdpStep acc)
    ({ issues := [], success := true }, true)).1

end Dfm

/-- Claim C2 (evaluation at the failing input): a 3D-printing checker
run in which the first check method of the first object raises.  The
exception is caught per-method and the remaining checks of that object
and of the subsequent object still run (both their issues are
collected), but the checker's overall success flag stays `true` —
`TDPDFMChecker.run_all_checks` assigns a local `success` variable, not
`self.success` — so the caller receives `success = true`, contradicting
the claimed `success = false` signal.  The same outcomes fed to the CNC
checker (which does assign `self.success`) yield `success = false`. -/
theorem Dfm.run_all_checks_tdp_keeps_success_true :
    Dfm.run_all_checks_tdp
        [[Dfm.CheckOutcome.raises, Dfm.CheckOutcome.ok ["wall thickness issue"]],
         [Dfm.CheckOutcome.ok ["small feature issue"]]] =
      { issues := ["wall thickness issue", "small feature issue"], success := true } ∧
    Dfm.run_all_checks_cnc
        [[Dfm.CheckOutcome.raises, Dfm.CheckOutcome.ok ["wall thickness issue"]],
         [Dfm.CheckOutcome.ok ["small feature issue"]]] =
      { issues := ["wall thickness issue", "small feature issue"], success := false } := by
  constructor <;> rfl

namespace Dfm

/-- A document object as `run_all_checks`/`check_clearances` see it:
its `Name`, its `Label`, whether `hasattr(obj, "Shape")` holds, and its
`ViewObject.Visibility`.  Object identity (`other == obj`) is modelled
by name equality; FreeCAD object names are unique within a document. -/
structure DocObject where
  name : String
  label : String
  hasShape : Bool := true
  visible : Bool := true
deriving DecidableEq

/-- A 3D point of a `distToShape` closest-point pair. -/
def Pt := ℚ × ℚ × ℚ

/-- One entry of the `insufficient_clearance` bucket
(tdp_check3.py lines 440-445). -/
structure ClearanceIssue where
  object1 : String
  object2 : String
  distance : ℚ
  required : ℚ
deriving DecidableEq

/-- The checker state `check_clearances` mutates: the
`insufficient_clearance` bucket and the `additional_objects` names of
the indicator line segments it creates. -/
structure ClearState where
  issues : List ClearanceIssue
  additional : List String
deriving DecidableEq

/-- The geometry kernel's `shape.distToShape(other_shape)`, supplied as
an oracle on object names: the minimum distance and the list of
closest-point pairs (`dist_info[0]`, `dist_info[1]`). -/
def DistOracle := String → String → ℚ × List (Pt × Pt)

/-- The body of the pair loop of `check_clearances` (lines 426-445):
for each closest-point pair a `Part::Line` named
`InsufficientClearance_<len(issues)>` is created and tracked, and one
issue naming both labels is appended. -/
def clearancePairStep (obj other : DocObject) (distance minClearance : ℚ)
    (st : ClearState) (_pair : Pt × Pt) : ClearState :=
  { issues := st.issues ++
      [{ object1 := obj.label, object2 := other.label,
         distance := distance, required := minClearance }],
    additional := st.additional ++
      ["InsufficientClearance_" ++ toString st.issues.length] }

/-- `TDPDFMChecker.check_clearances(obj)` (lines 412-450): walk every
other shaped object of the document; when `0 < distance <
min_clearance`, record one issue per closest-point pair; after a pair
loop, stop scanning further objects once more than 10 clearance issues
have accumulated. -/
def check_clearances (minClearance : ℚ) (dist : DistOracle) (obj : DocObject) :
    List DocObject → ClearState → ClearState
  | [], st => st
  | other :: rest, st =>
    if other.name = obj.name ∨ ¬other.hasShape then
      check_clearances minClearance dist obj rest st
    else
      let r := dist obj.name other.name
      if 0 < r.1 ∧ r.1 < minClearance then
        let st1 := r.2.foldl (clearancePairStep obj other r.1 minClearance) st
        if 10 < st1.issues.length then st1
        else check_clearances minClearance dist obj rest st1
      else check_clearances minClearance dist obj rest st

/-- The clearance portion of `TDPDFMChecker.run_all_checks`
(lines 100-138): `nobjects` counts the shaped objects; every *visible*
shaped object gets a `check_clearances` call when `nobjects > 1`.  (The
other five check methods never touch the `insufficient_clearance`
bucket, so they are omitted from this projection of the run.) -/
def run_clearance_checks (minClearance : ℚ) (dist : DistOracle)
    (objs : List DocObject) : ClearState :=
  let nobjects := (objs.filter (fun o => o.hasShape)).length
  objs.foldl
    (fun st obj =>
      if obj.hasShape ∧ obj.visible ∧ 1 < nobjects then
        check_clearances minClearance dist obj objs st
      else st)
    { issues := [], additional := [] }

/-- Claim C3's document: two boxes, labels `Box1`/`Box2`. -/
def c3doc : List DocObject :=
  [{ name := "Box1", label := "Box1" }, { name := "Box2", label := "Box2" }]

/-- Claim C3's geometry: the two boxes sit 3 mm apart edge-to-edge, and
`distToShape` reports distance 3.0 with one closest-point pair (in
either query direction); every other query returns distance 0. -/
def c3dist : DistOracle := fun a b =>
  if (a = "Box1" ∧ b = "Box2") ∨ (a = "Box2" ∧ b = "Box1") then
    (3, [((0, 0, 0), (3, 0, 0))])
  else (0, [])

end Dfm

/-- Claim C3 counterexample: for the two boxes 3 mm apart with
`min_clearance = 5.0`, the run records *two* `insufficient_clearance`
entries, not exactly one — `run_all_checks` calls `check_clearances`
once per object, so the pair is recorded from each side. -/
theorem Dfm.check_clearances_not_exactly_one :
    (Dfm.run_clearance_checks 5 Dfm.c3dist Dfm.c3doc).issues.length = 2 ∧
    (Dfm.run_clearance_checks 5 Dfm.c3dist Dfm.c3doc).issues.length ≠ 1 := by
  constructor <;> decide

/-- Claim C3 as amended: the same run records exactly two
`insufficient_clearance` entries — one from each object's scan of the
other — and each entry names both objects' labels with distance 3.0 and
required clearance 5.0. -/
theorem Dfm.check_clearances_pair_recorded_twice :
    (Dfm.run_clearance_checks 5 Dfm.c3dist Dfm.c3doc).issues =
      [{ object1 := "Box1", object2 := "Box2", distance := 3, required := 5 },
       { object1 := "Box2", object2 := "Box1", distance := 3, required := 5 }] := by
  decide

namespace Dfm

/-- The eight tunables of `TDPDFMChecker.__init__` (tdp_check3.py
lines 13-72), in declaration order. -/
structure TDPSettings where
  min_wall_thickness : ℚ
  min_feature_size : ℚ
  max_overhang_angle : ℚ
  min_hole_radius : ℚ
  min_text_size : ℚ
  min_vertical_wire_thickness : ℚ
  min_clearance : ℚ
  max_aspect_ratio : ℚ
deriving DecidableEq

/-- The preset dispatch of `TDPDFMChecker.__init__`: `FDM`, `SLA` and
`SLS` override all eight tunables with built-in literals; every other
`process_type` (the default is `"Other"`) keeps the explicitly passed
arguments. -/
def tdp_init (process_type : String) (passed : TDPSettings) : TDPSettings :=
  if process_type = "FDM" then ⟨4/5, 3/5, 45, 1, 2, 4/5, 1/2, 20⟩
  else if process_type = "SLA" then ⟨1/2, 3/10, 30, 1/2, 1, 1/2, 3/10, 30⟩
  else if process_type = "SLS" then ⟨7/10, 1/2, 0, 3/4, 3/2, 7/10, 1/2, 40⟩
  else passed

/-- `TDPDFMChecker.check_overhangs` (lines 181-247), projected to the
angles it flags: if `max_overhang_angle == 0.0` the method returns at
once (SLS: powder self-supports); otherwise each grid-sampled surface
normal whose angle to +Z exceeds `180 - max_overhang_angle` degrees
appends one `overhangs` issue.  `sample_angles` are the `angle_deg`
values the geometry kernel yields at the UV grid points of all faces. -/
def check_overhangs (max_overhang_angle : ℚ) (sample_angles : List ℚ) : List ℚ :=
  if max_overhang_angle = 0 then []
  else sample_angles.filter (fun a => 180 - max_overhang_angle < a)

end Dfm

/-- Claim C8: constructing the 3D-printing checker with
`process_type = "SLS"` sets `max_overhang_angle` to 0 and its overhang
check then returns an empty bucket for every geometry; `"Other"` keeps
every explicitly passed tunable (in particular an explicit
`max_overhang_angle`); and the FDM/SLA/SLS presets equal the literal
tuples 0.8/0.6/45/1.0/2.0/0.8/0.5/20, 0.5/0.3/30/0.5/1.0/0.5/0.3/30 and
0.7/0.5/0/0.75/1.5/0.7/0.5/40 stated in the spec. -/
theorem Dfm.tdp_process_presets (p : Dfm.TDPSettings) (angles : List ℚ) :
    (Dfm.tdp_init "SLS" p).max_overhang_angle = 0 ∧
    Dfm.check_overhangs (Dfm.tdp_init "SLS" p).max_overhang_angle angles = [] ∧
    Dfm.tdp_init "Other" p = p ∧
    Dfm.tdp_init "FDM" p = ⟨4/5, 3/5, 45, 1, 2, 4/5, 1/2, 20⟩ ∧
    Dfm.tdp_init "SLA" p = ⟨1/2, 3/10, 30, 1/2, 1, 1/2, 3/10, 30⟩ ∧
    Dfm.tdp_init "SLS" p = ⟨7/10, 1/2, 0, 3/4, 3/2, 7/10, 1/2, 40⟩ := by
  refine ⟨rfl, ?_, rfl, rfl, rfl, rfl⟩
  simp [Dfm.check_overhangs, Dfm.tdp_init]

namespace Rpc

/-- The two module-level restoration helpers of `dfm/base_checker.py`,
as the handler calls them: each maps a document name and a cached
payload to the updated document world and a result message (`""` means
success).  The document world `δ` and the cached color payload `κ` stay
abstract: `restore_colors_after_check` only touches them through these
two calls, and the claim holds for every behaviour of the helpers. -/
structure RestoreWorld (δ κ : Type) where
  restoreOriginalColors : String → κ → δ → δ × String
  removeAdditionalObjects : String → List String → δ → δ × String

/-- The `FreeCADRPC` state the claim is about: the per-document
`colors_storage` and `additional_objects` caches (plain dicts keyed by
document name, modelled as association lists with unique keys) plus the
document world. -/
structure HandlerState (δ κ : Type) where
  colors_storage : List (String × κ)
  additional_objects : List (String × List String)
  doc : δ

/-- Python's `doc_name in cache` / `cache[doc_name]` on an association
list. -/
def lookupKey {α : Type} (l : List (String × α)) (k : String) : Option α :=
  (l.find? (fun p => p.1 = k)).map (fun p => p.2)

/-- Python's `cache.pop(doc_name)` (keys are unique, so filtering the
one key out is exactly the dict pop). -/
def popKey {α : Type} (l : List (String × α)) (k : String) : List (String × α) :=
  l.filter (fun p => p.1 ≠ k)

/-- Python string strip of ASCII whitespace at both ends, on the
character list (Lean's own `String.trim` is not kernel-reducible). -/
def stripChars (l : List Char) : List Char :=
  ((l.dropWhile Char.isWhitespace).reverse.dropWhile Char.isWhitespace).reverse

/-- Python's `sep.join(msgs)`. -/
def joinWith (sep : String) : List String → String
  | [] => ""
  | [x] => x
  | x :: xs => x ++ sep ++ joinWith sep xs

/-- `" ".join(messages).strip()` of `restore_colors_after_check`. -/
def joinStrip (msgs : List String) : String :=
  String.mk (stripChars (joinWith " " msgs).data)

/-- The `{success, message}` record `restore_colors_after_check`
returns. -/
structure RestoreResult where
  success : Bool
  message : String
deriving DecidableEq

/-- First half of the `restore()` closure (rpc_handler.py
lines 401-403): if the document has cached colors, pop them and run
`restore_original_colors`, collecting its message. -/
def restoreStep1 {δ κ : Type} (w : RestoreWorld δ κ) (s : HandlerState δ κ)
    (doc_name : String) : HandlerState δ κ × List String :=
  match lookupKey s.colors_storage doc_name with
  | some colors =>
    let r := w.restoreOriginalColors doc_name colors s.doc
    ({ s with colors_storage := popKey s.colors_storage doc_name, doc := r.1 }, [r.2])
  | none => (s, [])

/-- Second half of the `restore()` closure (lines 404-406): if the
document has cached scratch objects, pop them and run
`remove_additional_objects`, collecting its message. -/
def restoreStep2 {δ κ : Type} (w : RestoreWorld δ κ) (s : HandlerState δ κ)
    (msgs : List String) (doc_name : String) : HandlerState δ κ × List String :=
  match lookupKey s.additional_objects doc_name with
  | some extras =>
    let r := w.removeAdditionalObjects doc_name extras s.doc
    ({ s with additional_objects := popKey s.additional_objects doc_name, doc := r.1 },
     msgs ++ [r.2])
  | none => (s, msgs)

/-- `FreeCADRPC.restore_colors_after_check` (rpc_handler.py
lines 398-409): run the two pop-and-restore steps, join the collected
messages with spaces, strip, and report `success = (message is
empty)`. -/
def restore_colors_after_check {δ κ : Type} (w : RestoreWorld δ κ)
    (s : HandlerState δ κ) (doc_name : String) : HandlerState δ κ × RestoreResult :=
  let t1 := restoreStep1 w s doc_name
  let t2 := restoreStep2 w t1.1 t1.2 doc_name
  let msg := joinStrip t2.2
  (t2.1, { success := msg.isEmpty, message := msg })

theorem lookupKey_popKey {α : Type} (l : List (String × α)) (k : String) :
    lookupKey (popKey l k) k = none := by
  induction l with
  | nil => rfl
  | cons h t ih =>
    by_cases hk : h.1 = k
    · simp only [popKey, hk, List.filter] at ih ⊢
      simpa using ih
    · simp only [popKey, lookupKey] at ih ⊢
      simp [List.filter_cons, hk, List.find?, ih]

theorem restoreStep1_colors_none {δ κ : Type} (w : RestoreWorld δ κ)
    (s : HandlerState δ κ) (doc_name : String) :
    lookupKey (restoreStep1 w s doc_name).1.colors_storage doc_name = none := by
  unfold restoreStep1
  rcases h : lookupKey s.colors_storage doc_name with _ | colors
  · simpa using h
  · simpa using lookupKey_popKey s.colors_storage doc_name

theorem restoreStep1_additional {δ κ : Type} (w : RestoreWorld δ κ)
    (s : HandlerState δ κ) (doc_name : String) :
    (restoreStep1 w s doc_name).1.additional_objects = s.additional_objects := by
  unfold restoreStep1
  rcases h : lookupKey s.colors_storage doc_name with _ | colors <;> simp

theorem restoreStep2_additional_none {δ κ : Type} (w : RestoreWorld δ κ)
    (s : HandlerState δ κ) (msgs : List String) (doc_name : String) :
    lookupKey (restoreStep2 w s msgs doc_name).1.additional_objects doc_name = none := by
  unfold restoreStep2
  rcases h : lookupKey s.additional_objects doc_name with _ | extras
  · simpa using h
  · simpa using lookupKey_popKey s.additional_objects doc_name

theorem restoreStep2_colors {δ κ : Type} (w : RestoreWorld δ κ)
    (s : HandlerState δ κ) (msgs : List String) (doc_name : String) :
    (restoreStep2 w s msgs doc_name).1.colors_storage = s.colors_storage := by
  unfold restoreStep2
  rcases h : lookupKey s.additional_objects doc_name with _ | extras <;> simp

theorem restoreStep1_of_none {δ κ : Type} (w : RestoreWorld δ κ)
    (s : HandlerState δ κ) (doc_name : String)
    (h : lookupKey s.colors_storage doc_name = none) :
    restoreStep1 w s doc_name = (s, []) := by
  unfold restoreStep1
  rw [h]

theorem restoreStep2_of_none {δ κ : Type} (w : RestoreWorld δ κ)
    (s : HandlerState δ κ) (msgs : List String) (doc_name : String)
    (h : lookupKey s.additional_objects doc_name = none) :
    restoreStep2 w s msgs doc_name = (s, msgs) := by
  unfold restoreStep2
  rw [h]

end Rpc

/-- Claim C6: after any `restore_colors_after_check` call, the
document's cache entries are gone, so an immediately repeated call for
the same document name returns the state unchanged (no further mutation
of the document world), with `success = true` and an empty message —
for every handler state, every document name, and every behaviour of
the underlying restoration helpers. -/
theorem Rpc.restore_colors_after_check_idempotent {δ κ : Type}
    (w : Rpc.RestoreWorld δ κ) (s : Rpc.HandlerState δ κ) (doc_name : String) :
    (Rpc.restore_colors_after_check w
        (Rpc.restore_colors_after_check w s doc_name).1 doc_name).1 =
      (Rpc.restore_colors_after_check w s doc_name).1 ∧
    (Rpc.restore_colors_after_check w
        (Rpc.restore_colors_after_check w s doc_name).1 doc_name).2 =
      { success := true, message := "" } ∧
    Rpc.lookupKey (Rpc.restore_colors_after_check w s doc_name).1.colors_storage
        doc_name = none ∧
    Rpc.lookupKey (Rpc.restore_colors_after_check w s doc_name).1.additional_objects
        doc_name = none := by
  set s1 := (Rpc.restore_colors_after_check w s doc_name).1 with hs1
  have hcol : Rpc.lookupKey s1.colors_storage doc_name = none := by
    rw [hs1]
    unfold Rpc.restore_colors_after_check
    simp [Rpc.restoreStep2_colors, Rpc.restoreStep1_colors_none]
  have hadd : Rpc.lookupKey s1.additional_objects doc_name = none := by
    rw [hs1]
    unfold Rpc.restore_colors_after_check
    simp [Rpc.restoreStep2_additional_none]
  have hsecond : Rpc.restore_colors_after_check w s1 doc_name =
      (s1, { success := true, message := "" }) := by
    unfold Rpc.restore_colors_after_check
    rw [Rpc.restoreStep1_of_none w s1 doc_name hcol]
    simp [Rpc.restoreStep2_of_none w s1 [] doc_name hadd]
    exact ⟨rfl, rfl⟩
  exact ⟨by rw [hsecond], by rw [hsecond], hcol, hadd⟩

namespace Client

/-- One tool call of an assistant message (`tool_call.function.name`,
`.function.arguments`, `.id`). -/
structure ToolCall where
  name : String
  arguments : String
  id : String
deriving DecidableEq

/-- The assistant message of one chat completion:
`response.choices[0].message`, with `content = none` for Python
`None`. -/
structure AssistantMessage where
  tool_calls : List ToolCall
  content : Option String
deriving DecidableEq

/-- Python truthiness of `message.content` (`None` and `""` are
falsy). -/
def contentTruthy : Option String → Bool
  | none => false
  | some s => !s.isEmpty

/-- The body of `FreeCADAI.run`'s `while turn < self.max_turns` loop
(client.py lines 131-185), by structural recursion on the remaining
turns `max_turns - turn`; `idx` numbers the completion requests so the
LLM oracle `responses` can answer each request differently.  Each loop
iteration issues exactly one chat-completion request (counted as `1 +
...`); a message with tool calls dispatches them and `continue`s, a
message with truthy content `break`s, and a message with neither tool
calls nor truthy content falls through to the next iteration.  The
function is total — its very definition by structural recursion is the
termination argument for the loop. -/
def completions_used (responses : ℕ → AssistantMessage) : ℕ → ℕ → ℕ
  | _, 0 => 0
  | idx, remaining + 1 =>
    let m := responses idx
    if !m.tool_calls.isEmpty then 1 + completions_used responses (idx + 1) remaining
    else if contentTruthy m.content then 1
    else 1 + completions_used responses (idx + 1) remaining

/-- Number of chat-completion requests one `FreeCADAI.run` user turn
performs against the LLM oracle `responses`, starting from `turn = 0`
with the configured `max_iterations` bound. -/
def run_completions (responses : ℕ → AssistantMessage) (max_turns : ℕ) : ℕ :=
  completions_used responses 0 max_turns

theorem completions_used_le (responses : ℕ → AssistantMessage) :
    ∀ remaining idx, completions_used responses idx remaining ≤ remaining := by
  intro remaining
  induction remaining with
  | zero => intro idx; simp [completions_used]
  | succ r ih =>
    intro idx
    unfold completions_used
    dsimp only
    split
    · have := ih (idx + 1); omega
    · split
      · omega
      · have := ih (idx + 1); omega

theorem completions_used_eq_of_tools (responses : ℕ → AssistantMessage)
    (h : ∀ k, (responses k).tool_calls ≠ []) :
    ∀ remaining idx, completions_used responses idx remaining = remaining := by
  intro remaining
  induction remaining with
  | zero => intro idx; simp [completions_used]
  | succ r ih =>
    intro idx
    unfold completions_used
    dsimp only
    have hne : (responses idx).tool_calls.isEmpty = false := by
      simpa [List.isEmpty_iff] using h idx
    simp [hne, ih (idx + 1), Nat.add_comm]

end Client

/-- Claim C7: for every LLM oracle and every configured
`max_iterations`, the stateful `run` loop performs at most
`max_iterations` chat-completion requests per user turn; and when every
response carries tool calls and no plain content the loop still
terminates, performing exactly `max_iterations` requests (termination
itself is witnessed by `run_completions` being a total structurally
recursive function). -/
theorem Client.run_loop_request_bound (responses : ℕ → Client.AssistantMessage)
    (max_iterations : ℕ) :
    Client.run_completions responses max_iterations ≤ max_iterations ∧
    ((∀ k, (responses k).tool_calls ≠ []) →
      Client.run_completions responses max_iterations = max_iterations) :=
  ⟨Client.completions_used_le responses max_iterations 0,
   fun h => Client.completions_used_eq_of_tools responses h max_iterations 0⟩

/-- Witness for C7: the default `max_iterations = 6` against the
pathological LLM that always answers with one tool call and no content —
the loop stops after exactly 6 requests. -/
theorem Client.run_loop_request_bound_witness :
    Client.run_completions
        (fun _ => { tool_calls := [{ name := "ping", arguments := "", id := "1" }],
                    content := none }) 6 = 6 :=
  (Client.run_loop_request_bound
      (fun _ => { tool_calls := [{ name := "ping", arguments := "", id := "1" }],
                  content := none }) 6).2
    (fun k => by simp)

namespace Cad

/-- The `dependency_graph` that `analyze_feature_dependencies` builds:
`feature name → feature.dependencies`, in feature-creation (dict
insertion) order. -/
def Graph := List (String × List String)

/-- `dependency_graph.get(node, [])`. -/
def getDeps (g : Graph) (n : String) : List String :=
  ((g.find? (fun p => p.1 = n)).map (fun p => p.2)).getD []

/-- The `for neighbor in ...` loop of `has_circular_ref`, taking the
recursive visit of one node as the function argument `visit` (which
threads the shared mutable `visited` set; `rs` is the per-start
`rec_stack`, restored on normal exit exactly as `rec_stack.remove(node)`
does because the extension made in `visit` is local to it). -/
def cycList (visit : String → List String → List String → Bool × List String) :
    List String → List String → List String → Bool × List String
  | [], visited, _ => (false, visited)
  | nb :: rest, visited, rs =>
    if nb ∈ visited then
      if nb ∈ rs then (true, visited) else cycList visit rest visited rs
    else
      match visit nb visited rs with
      | (true, v) => (true, v)
      | (false, v) => cycList visit rest v rs

/-- `has_circular_ref(node, visited, rec_stack)`
(advanced_cad_operations.py lines 533-546): add the node to `visited`
and `rec_stack`, then scan its dependency list.  `fuel` bounds the
recursion depth; each nested call adds a previously unvisited name to
`visited`, so a fuel of (number of names) + 1 is never exhausted and the
`fuel = 0` branch is unreachable for the top-level calls below. -/
def has_circular_ref (g : Graph) : ℕ → String → List String → List String →
    Bool × List String
  | 0, _, visited, _ => (false, visited)
  | fuel + 1, node, visited, rec_stack =>
    cycList (has_circular_ref g fuel) (getDeps g node) (node :: visited)
      (node :: rec_stack)

/-- The `circular_references` computation of
`analyze_feature_dependencies` (lines 548-552): scan the features in
insertion order with a shared `visited` set and a fresh `rec_stack` per
start; a start whose DFS finds a back edge is appended to the list. -/
def circular_references (g : Graph) : List String :=
  let fuel := g.length + (g.map (fun p => p.2)).flatten.length + 1
  (g.foldl
    (fun (acc : List String × List String) p =>
      if p.1 ∈ acc.2 then acc
      else
        match has_circular_ref g fuel p.1 acc.2 [] with
        | (true, v) => (acc.1 ++ [p.1], v)
        | (false, v) => (acc.1, v))
    ([], [])).1

/-- The three-feature cycle of claim C9: A depends on B, B on C, C on
A. -/
def cycleGraph : Graph := [("A", ["B"]), ("B", ["C"]), ("C", ["A"])]

/-- The pure three-feature chain of claim C9: A depends on B, B on C, C
on nothing. -/
def chainGraph : Graph := [("A", ["B"]), ("B", ["C"]), ("C", [])]

end Cad

/-- Claim C9: for the dependency cycle A→B→C→A,
`analyze_feature_dependencies` reports at least one of A, B, C in
`circular_references` (it reports exactly the first-scanned feature A);
for the pure chain A→B→C with no back edge, `circular_references` is
empty. -/
theorem Cad.dependency_cycle_detection :
    Cad.circular_references Cad.cycleGraph = ["A"] ∧
    ("A" ∈ Cad.circular_references Cad.cycleGraph ∨
     "B" ∈ Cad.circular_references Cad.cycleGraph ∨
     "C" ∈ Cad.circular_references Cad.cycleGraph) ∧
    Cad.circular_references Cad.chainGraph = [] := by
  refine ⟨by decide, ?_, by decide⟩
  left
  decide

namespace Fit

/-- The binding warning string of `calculate_fit_and_tolerance`
(enhanced_server.py line 553). -/
def bindingWarning : String := "Minimum clearance is negative - may cause binding"

/-- The interference warning string (line 557). -/
def interferenceWarning : String := "Maximum clearance is positive - insufficient interference"

/-- The thermal-significance warning string (line 560). -/
def thermalWarning : String := "Thermal expansion is significant relative to fit"

/-- The suitability/warning verdict of `calculate_fit_and_tolerance`. -/
structure FitReport where
  fit_suitability : String
  warnings : List String
  max_clearance : ℚ
  min_clearance : ℚ
deriving DecidableEq

/-- The fit-suitability logic of `calculate_fit_and_tolerance`
(enhanced_server.py lines 538-560), applied to the hole/shaft tolerance
pair returned by the (missing) `calculate_tolerance_stack` (the `.get`
defaults are 0.025 and -0.013) and the computed thermal expansion:
`max_clearance = hole - shaft + thermal`,
`min_clearance = -hole + shaft + thermal`, suitability starts at
`"Suitable"` with no warnings, a clearance fit with
`min_clearance <= 0` becomes `"Unsuitable"` with the binding warning,
an interference fit with `max_clearance >= 0` becomes `"Unsuitable"`
with the interference warning, and a thermal expansion exceeding half
the magnitude of `min_clearance` adds the thermal warning. -/
def calculate_fit_and_tolerance (fit_type : String)
    (hole_tolerance shaft_tolerance thermal_expansion : ℚ) : FitReport :=
  let max_clearance := hole_tolerance - shaft_tolerance + thermal_expansion
  let min_clearance := -hole_tolerance + shaft_tolerance + thermal_expansion
  let st1 : String × List String :=
    if fit_type = "clearance" ∧ min_clearance ≤ 0
    then ("Unsuitable", [bindingWarning]) else ("Suitable", [])
  let st2 : String × List String :=
    if fit_type = "interference" ∧ 0 ≤ max_clearance
    then ("Unsuitable", st1.2 ++ [interferenceWarning]) else st1
  let w3 : List String :=
    if |min_clearance| * (1/2) < |thermal_expansion|
    then st2.2 ++ [thermalWarning] else st2.2
  { fit_suitability := st2.1, warnings := w3,
    max_clearance := max_clearance, min_clearance := min_clearance }

/-- Modelled from the spec: `ManufacturingFramework.calculate_tolerance_stack`
is imported and called by `enhanced_server.py` but no
`ManufacturingFramework` class is defined anywhere in the repository.
Following spec section 4.16, the tolerance unit is
`i = 0.45 * cbrt(d) + 0.001 * d` (the cube root of the nominal
dimension is irrational and is passed in as `cbrt_d`), the named
IT grade contributes a literal micrometre-scale coefficient converted
to millimetres, the hole band extends upward from the nominal by the
hole tolerance, and a clearance fit offsets the shaft by the
fundamental deviation −0.01 mm minus the shaft tolerance; the returned
pair is the `(hole_tolerance, shaft_tolerance)` the caller reads. -/
def calculate_tolerance_stack (cbrt_d d grade_hole grade_shaft : ℚ) : ℚ × ℚ :=
  let i := (45/100) * cbrt_d + (1/1000) * d
  (i * grade_hole / 1000, -(1/100) - i * grade_shaft / 1000)

end Fit

/-- Claim C5: with `fit_type = "clearance"` and the thermal range held
at 0, for every hole/shaft tolerance pair the tolerance stack can
derive, the tool reports `"Unsuitable"` together with the binding
warning whenever the derived minimum clearance (`shaft − hole`) is ≤ 0,
and reports `"Suitable"` with no binding warning (indeed no warning at
all) whenever it is strictly positive. -/
theorem Fit.fit_suitability_correct (hole_tolerance shaft_tolerance : ℚ) :
    (shaft_tolerance - hole_tolerance ≤ 0 →
      (Fit.calculate_fit_and_tolerance "clearance" hole_tolerance shaft_tolerance
          0).fit_suitability = "Unsuitable" ∧
      Fit.bindingWarning ∈
        (Fit.calculate_fit_and_tolerance "clearance" hole_tolerance shaft_tolerance
          0).warnings) ∧
    (0 < shaft_tolerance - hole_tolerance →
      (Fit.calculate_fit_and_tolerance "clearance" hole_tolerance shaft_tolerance
          0).fit_suitability = "Suitable" ∧
      (Fit.calculate_fit_and_tolerance "clearance" hole_tolerance shaft_tolerance
          0).warnings = []) := by
  constructor
  · intro h
    have hmin : ("clearance":String) = "clearance" ∧
        -hole_tolerance + shaft_tolerance + (0:ℚ) ≤ 0 := ⟨rfl, by linarith⟩
    have hintf : ¬(("clearance":String) = "interference" ∧
        (0:ℚ) ≤ hole_tolerance - shaft_tolerance + 0) := by
      rintro ⟨hc, -⟩
      exact absurd hc (by decide)
    have hth : ¬(|-hole_tolerance + shaft_tolerance + (0:ℚ)| * (1/2) < |(0:ℚ)|) := by
      rw [abs_zero]
      exact not_lt.mpr (by positivity)
    unfold Fit.calculate_fit_and_tolerance
    dsimp only
    rw [if_pos hmin, if_neg hintf, if_neg hth]
    exact ⟨rfl, by simp⟩
  · intro h
    have hmin : ¬(("clearance":String) = "clearance" ∧
        -hole_tolerance + shaft_tolerance + (0:ℚ) ≤ 0) := by
      rintro ⟨-, hc⟩
      linarith
    have hintf : ¬(("clearance":String) = "interference" ∧
        (0:ℚ) ≤ hole_tolerance - shaft_tolerance + 0) := by
      rintro ⟨hc, -⟩
      exact absurd hc (by decide)
    have hth : ¬(|-hole_tolerance + shaft_tolerance + (0:ℚ)| * (1/2) < |(0:ℚ)|) := by
      rw [abs_zero]
      exact not_lt.mpr (by positivity)
    unfold Fit.calculate_fit_and_tolerance
    dsimp only
    rw [if_neg hmin, if_neg hintf, if_neg hth]
    exact ⟨rfl, rfl⟩

/-- Witness for C5: the code's own default tolerance pair
(0.025, −0.013) derives a negative minimum clearance and is reported
Unsuitable with the binding warning; the pair the spec-modelled
tolerance stack produces for a 50 mm clearance fit (H-grade 16,
shaft-grade 10, cube root ≈ 3.7) likewise; and the pair
(0.01, 0.02) with positive minimum clearance is reported Suitable with
no warnings. -/
theorem Fit.fit_suitability_correct_witness :
    (Fit.calculate_fit_and_tolerance "clearance" (1/40) (-(13/1000))
        0).fit_suitability = "Unsuitable" ∧
    (Fit.calculate_fit_and_tolerance "clearance"
        (Fit.calculate_tolerance_stack (37/10) 50 16 10).1
        (Fit.calculate_tolerance_stack (37/10) 50 16 10).2
        0).fit_suitability = "Unsuitable" ∧
    (Fit.calculate_fit_and_tolerance "clearance" (1/100) (1/50)
        0).fit_suitability = "Suitable" ∧
    (Fit.calculate_fit_and_tolerance "clearance" (1/100) (1/50)
        0).warnings = [] :=
  ⟨((Fit.fit_suitability_correct (1/40) (-(13/1000))).1 (by norm_num)).1,
   ((Fit.fit_suitability_correct (Fit.calculate_tolerance_stack (37/10) 50 16 10).1
        (Fit.calculate_tolerance_stack (37/10) 50 16 10).2).1
      (by norm_num [Fit.calculate_tolerance_stack])).1,
   ((Fit.fit_suitability_correct (1/100) (1/50)).2 (by norm_num)).1,
   ((Fit.fit_suitability_correct (1/100) (1/50)).2 (by norm_num)).2⟩
